import Mathlib

/-!
# Market Truth Framework — synthesis core, verified model

A shallow embedding of the synthesis core of the trading-platform repository:

* `market_truth/core/layer_schema.py` — the standardized layer-output record
  (`LayerOutput.create_empty`; analyzer dicts in general).
* `market_truth/core/synthesis_engine.py` — `SynthesisEngine`:
  `_get_weights`, `_analyze_structural_patterns`, `_calculate_weighted_score`,
  `_compute_belief_state`, `_determine_action`, `synthesize`.
* `market_truth/core/temporal_engine.py` — `TemporalEngine`:
  `get_temporal_analysis`, `_compute_deltas` (momentum part).

Modelling conventions:
* Python numbers are modelled as exact rationals (`ℚ`); the source uses IEEE
  floats, whose rounding is outside the scope of this development.
* Python dicts with a fixed key set are modelled as structures; dicts with
  open key sets (the layer map, the weight table) as association lists
  `List (String × _)` (a Python dict has unique keys; hypotheses state
  `Nodup` where a claim needs it).
* A dict field that the source reads with `.get(key)` / `.get(key, default)`
  and that may be absent is modelled as an `Option`, read with `Option.getD`.
* Purely textual/diagnostic outputs that no downstream code branches on
  (log printing, the `reasoning` explanation strings, the per-layer score
  `breakdown`, the temporal engine's risk-drift / conviction-change /
  summary blocks) are elided; each elision is noted on the definition.
-/

namespace MarketTruth

/-- A layer dict as consumed by `SynthesisEngine` (the standardized
`LayerOutput` shape of `layer_schema.py`).  Every field the synthesis engine
reads is present; fields are `Option`s because the engine reads them with
`dict.get` defaults and tolerates their absence (e.g. `layers.get(name, {})`
yields an all-absent dict). -/
structure LayerDict where
  score : Option ℚ := none
  normalized_score : Option ℚ := none
  trajectory : Option String := none
  risk_level : Option String := none
  risk_flags : Option (List String) := none
  strength_flags : Option (List String) := none
  core_signals : Option (List (String × String)) := none
  raw_data : Option (List (String × String)) := none
  deriving Repr, DecidableEq

/-- The layer map passed to `SynthesisEngine.synthesize`: a Python dict from
layer name to layer dict, modelled as an association list. -/
abbrev Layers := List (String × LayerDict)

/-- `layers.get(name, <empty dict>)` — the empty dict is `{}` with every
field absent. -/
def getLayer (layers : Layers) (k : String) : LayerDict :=
  (layers.lookup k).getD {}

/-- `LayerOutput.create_empty` of `layer_schema.py`: the neutral layer
record produced when an analyzer errors. -/
def LayerOutput.create_empty (reason : String) : LayerDict :=
  { score := some 5
    normalized_score := some 0.5
    trajectory := some "unknown"
    risk_level := some "medium"
    risk_flags := some []
    strength_flags := some []
    core_signals := some [("note", reason)]
    raw_data := some [] }

/-- A successful `List.lookup` on an association list comes from a member
pair. -/
theorem lookup_mem {β : Type} {l : List (String × β)} {k : String} {v : β}
    (h : l.lookup k = some v) : (k, v) ∈ l := by
  induction l with
  | nil => simp [List.lookup] at h
  | cons p t ih =>
    rw [List.lookup] at h
    by_cases hk : k = p.1
    · subst hk
      simp at h
      simp [← h]
    · have hbeq : (k == p.1) = false := beq_false_of_ne hk
      rw [hbeq] at h
      exact List.mem_cons_of_mem _ (ih h)

/-! ## Industry weight resolution (`SynthesisEngine._get_weights`) -/

/-- One sector/industry entry of `config/industry_weights.json`: per-layer
weight multipliers. -/
abbrev WeightMap := List (String × ℚ)

/-- The loaded `industry_weights.json` table. -/
abbrev WeightTable := List (String × WeightMap)

/-- `self.default_weights = self.industry_weights.get('_default_weights', {})`
from `SynthesisEngine.__init__`. -/
def default_weights (table : WeightTable) : WeightMap :=
  (table.lookup "_default_weights").getD []

/-- Python truthiness of an optional string (`if industry and ...`): `None`
and the empty string are falsy. -/
def truthy : Option String → Bool
  | none => false
  | some s => s != ""

/-- Python's `key.startswith('_')` for the one-character prefix `'_'` used
throughout `_get_weights`: tests whether the first character is an
underscore. -/
def startsWithUnderscore (s : String) : Bool :=
  match s.data with
  | [] => false
  | c :: _ => c == '_'

/-- `SynthesisEngine._get_weights`: prefer an industry match, then a sector
match (each with metadata keys starting with `_` filtered out), else the
default weights (returned as stored, unfiltered). -/
def get_weights (table : WeightTable) (sector industry : Option String) :
    WeightMap :=
  match (if truthy industry then table.lookup (industry.getD "") else none) with
  | some m => m.filter (fun kv => !(startsWithUnderscore kv.1))
  | none =>
    match (if truthy sector then table.lookup (sector.getD "") else none) with
    | some m => m.filter (fun kv => !(startsWithUnderscore kv.1))
    | none => default_weights table

/-! ## Structural pattern analyzer
(`SynthesisEngine._analyze_structural_patterns`) -/

/-- Result record of `_analyze_structural_patterns`.  The
`cross_layer_signals` dict only ever holds the key `consistency`; it is
modelled as the `consistency` field (`none` = key absent). -/
structure StructuralAnalysis where
  disqualify : Bool
  amplify : Bool
  override_rules_triggered : List String
  pattern_matches : List String
  consistency : Option String
  deriving Repr, DecidableEq

/-- Population variance of a list of rationals.  The source compares
`np.std(scores)` (population standard deviation) with 2 and 4; since
`std = √variance` and all quantities are nonnegative, `std < 2 ↔ var < 4`
and `std > 4 ↔ var > 16`, so the embedding carries the variance and squares
the source's thresholds. -/
def popVariance (xs : List ℚ) : ℚ :=
  let n : ℚ := xs.length
  let mean := xs.sum / n
  ((xs.map (fun x => (x - mean) ^ 2)).sum) / n

/-- Override rule 1 of `_analyze_structural_patterns` (financial distress +
insider selling), stated standalone for comparison with the analyzer. -/
def rule1Cond (layers : Layers) : Bool :=
  let financial := getLayer layers "financial_truth"
  let management := getLayer layers "management"
  (financial.risk_level == some "critical" || financial.risk_level == some "high")
    && (financial.risk_flags.getD []).contains "NEGATIVE_FREE_CASH_FLOW"
    && (management.risk_flags.getD []).contains "INSIDER_HEAVY_SELLING"

/-- Override rule 2 (declining revenue + deteriorating cash), standalone. -/
def rule2Cond (layers : Layers) : Bool :=
  let business := getLayer layers "business_model"
  let financial := getLayer layers "financial_truth"
  (business.risk_flags.getD []).contains "DECLINING_REVENUE"
    && (financial.risk_flags.getD []).contains "REVENUE_UP_CASH_DOWN"

/-- Override rule 3 (negative FCF + high debt), standalone. -/
def rule3Cond (layers : Layers) : Bool :=
  let financial := getLayer layers "financial_truth"
  (financial.risk_flags.getD []).contains "NEGATIVE_FREE_CASH_FLOW"
    && (financial.risk_flags.getD []).contains "HIGH_DEBT_TO_EBITDA"

/-- Override rule 4 (low interest coverage + deteriorating trajectory),
standalone. -/
def rule4Cond (layers : Layers) : Bool :=
  let financial := getLayer layers "financial_truth"
  (financial.risk_flags.getD []).contains "LOW_INTEREST_COVERAGE"
    && financial.trajectory == some "deteriorating"

/-- Rule 5 (competitive pressure + low margins), the warning-only rule,
standalone. -/
def rule5Cond (layers : Layers) : Bool :=
  let business := getLayer layers "business_model"
  let competitive := getLayer layers "competitive"
  (competitive.risk_level == some "high" || competitive.risk_level == some "critical")
    && (business.risk_flags.getD []).contains "LOW_MARGINS"

/-- `SynthesisEngine._analyze_structural_patterns`: the cross-layer rule
battery.  Rules 1–4 each set `disqualify` and append their message; rule 5
only appends its message.  Amplification rules set `amplify` and append
pattern names; the consistency diagnostic compares the score dispersion
(see `popVariance`) with the source's thresholds.  The `risk` layer is
extracted but never used in the source and is therefore not read here. -/
def analyze_structural_patterns (layers : Layers) : StructuralAnalysis :=
  let business := getLayer layers "business_model"
  let financial := getLayer layers "financial_truth"
  let management := getLayer layers "management"
  let competitive := getLayer layers "competitive"
  let r1 := (financial.risk_level == some "critical" || financial.risk_level == some "high")
      && (financial.risk_flags.getD []).contains "NEGATIVE_FREE_CASH_FLOW"
      && (management.risk_flags.getD []).contains "INSIDER_HEAVY_SELLING"
  let r2 := (business.risk_flags.getD []).contains "DECLINING_REVENUE"
      && (financial.risk_flags.getD []).contains "REVENUE_UP_CASH_DOWN"
  let r3 := (financial.risk_flags.getD []).contains "NEGATIVE_FREE_CASH_FLOW"
      && (financial.risk_flags.getD []).contains "HIGH_DEBT_TO_EBITDA"
  let r4 := (financial.risk_flags.getD []).contains "LOW_INTEREST_COVERAGE"
      && financial.trajectory == some "deteriorating"
  let r5 := (competitive.risk_level == some "high" || competitive.risk_level == some "critical")
      && (business.risk_flags.getD []).contains "LOW_MARGINS"
  let amp1 := decide (business.score.getD 0 ≥ 7) && decide (financial.score.getD 0 ≥ 7)
  let trajectories := layers.map (fun kv => kv.2.trajectory)
  let improving_count := trajectories.count (some "improving")
  let deteriorating_count := trajectories.count (some "deteriorating")
  let amp2 := decide (improving_count ≥ 3) && decide (deteriorating_count = 0)
  let compounder := decide (business.score.getD 0 ≥ 8)
      && financial.trajectory == some "improving"
  let scores := layers.filterMap (fun kv => kv.2.score)
  let var := popVariance scores
  let consistency : Option String :=
    if scores = [] then none
    else if var < 4 then some "HIGH"
    else if var > 16 then some "CONFLICTING"
    else none
  let mixed := !decide (scores = []) && !decide (var < 4) && decide (var > 16)
  { disqualify := r1 || r2 || r3 || r4
    amplify := amp1 || amp2
    override_rules_triggered :=
      (if r1 then ["FINANCIAL_DISTRESS + INSIDER_SELLING = Management bailing before bankruptcy"] else [])
      ++ (if r2 then ["DECLINING_REVENUE + CASH_FLOW_DETERIORATION = Business dying"] else [])
      ++ (if r3 then ["NEGATIVE_FCF + HIGH_DEBT = Cannot service debt, distress imminent"] else [])
      ++ (if r4 then ["LOW_COVERAGE + DETERIORATING = Death spiral beginning"] else [])
      ++ (if r5 then ["COMPETITIVE_PRESSURE + LOW_MARGINS = No moat, commodity pricing"] else [])
    pattern_matches :=
      (if amp1 then ["STRONG_FUNDAMENTALS"] else [])
      ++ (if amp2 then ["BROAD_IMPROVEMENT"] else [])
      ++ (if compounder then ["COMPOUNDER_PROFILE"] else [])
      ++ (if mixed then ["MIXED_SIGNALS"] else [])
    consistency := consistency }

/-! ## Weighted scorer (`SynthesisEngine._calculate_weighted_score`) -/

/-- The seven canonical layer names of `_calculate_weighted_score`'s
`layer_mapping` (an identity mapping in the source). -/
def canonicalLayers : List String :=
  ["business_model", "financial_truth", "management", "market_structure",
   "competitive", "macro", "risk"]

/-- One iteration of `_calculate_weighted_score`'s loop: if the canonical
layer `key` is present in `layers`, add `score · weight` (score defaulting
to 5, weight defaulting to 1.0) to the weighted total and `weight` to the
weight sum; otherwise leave the accumulator unchanged. -/
def weightedStep (layers : Layers) (weights : WeightMap) (acc : ℚ × ℚ)
    (key : String) : ℚ × ℚ :=
  match layers.lookup key with
  | some layer_data =>
    (acc.1 + layer_data.score.getD 5 * (weights.lookup key).getD 1,
     acc.2 + (weights.lookup key).getD 1)
  | none => acc

/-- The accumulation loop of `_calculate_weighted_score` over the seven
canonical layer names.  Returns `(weighted_total, weight_sum)`. -/
def weightedSums (layers : Layers) (weights : WeightMap) : ℚ × ℚ :=
  canonicalLayers.foldl (weightedStep layers weights) (0, 0)

/-- `SynthesisEngine._calculate_weighted_score` (the returned score; the
per-layer `breakdown` dict, which is purely diagnostic, is elided):
`weighted_total / (10 · weight_sum) · 100`, or the neutral 50 when
`10 · weight_sum` is not positive. -/
def calculate_weighted_score (layers : Layers) (weights : WeightMap) : ℚ :=
  let sums := weightedSums layers weights
  let max_possible := 10 * sums.2
  if max_possible > 0 then sums.1 / max_possible * 100 else 50

/-! ## Belief state (`SynthesisEngine._compute_belief_state`) -/

/-- The four-way belief record returned by `_compute_belief_state`. -/
structure BeliefState where
  bull_prob : ℚ
  bear_prob : ℚ
  distress_prob : ℚ
  neutral_prob : ℚ
  deriving Repr, DecidableEq

/-- The evidence-update portion of `_compute_belief_state` (priors and the
multiplicative updates, source lines 317–348), without the disqualify
forcing; stated standalone so the forcing step can be compared against it.
Returns `(bull_prob, bear_prob, distress_prob)`. -/
def beliefUpdates (layers : Layers) : ℚ × ℚ × ℚ :=
  let bull : ℚ := 0.3
  let bear : ℚ := 0.2
  let distress : ℚ := 0.05
  let financial := getLayer layers "financial_truth"
  let distress :=
    if financial.risk_level == some "critical" then distress * 5
    else if financial.risk_level == some "high" then distress * 3
    else distress
  let business := getLayer layers "business_model"
  let bb : ℚ × ℚ :=
    if business.score.getD 5 ≥ 8 then (bull * 2, bear)
    else if business.score.getD 5 ≤ 3 then (bull * 0.3, bear * 2)
    else (bull, bear)
  let bull := bb.1
  let bear := bb.2
  let trajectories := layers.map (fun kv => kv.2.trajectory)
  let improving_count := trajectories.count (some "improving")
  let deteriorating_count := trajectories.count (some "deteriorating")
  let bull := if improving_count ≥ 3 then bull * 1.5 else bull
  let bd : ℚ × ℚ :=
    if deteriorating_count ≥ 3 then (bear * 2, distress * 1.5) else (bear, distress)
  let bear := bd.1
  let distress := bd.2
  (bull, bear, distress)

/-- The pre-normalization probability triple of `_compute_belief_state`
(source lines 317–354): priors, multiplicative evidence updates, then the
structural-disqualify forcing.  Returns
`(bull_prob, bear_prob, distress_prob)`. -/
def beliefRaw (layers : Layers) (sa : StructuralAnalysis) : ℚ × ℚ × ℚ :=
  let bull : ℚ := 0.3
  let bear : ℚ := 0.2
  let distress : ℚ := 0.05
  let financial := getLayer layers "financial_truth"
  let distress :=
    if financial.risk_level == some "critical" then distress * 5
    else if financial.risk_level == some "high" then distress * 3
    else distress
  let business := getLayer layers "business_model"
  let bb : ℚ × ℚ :=
    if business.score.getD 5 ≥ 8 then (bull * 2, bear)
    else if business.score.getD 5 ≤ 3 then (bull * 0.3, bear * 2)
    else (bull, bear)
  let bull := bb.1
  let bear := bb.2
  let trajectories := layers.map (fun kv => kv.2.trajectory)
  let improving_count := trajectories.count (some "improving")
  let deteriorating_count := trajectories.count (some "deteriorating")
  let bull := if improving_count ≥ 3 then bull * 1.5 else bull
  let bd : ℚ × ℚ :=
    if deteriorating_count ≥ 3 then (bear * 2, distress * 1.5) else (bear, distress)
  let bear := bd.1
  let distress := bd.2
  if sa.disqualify then (0.05, 0.7, min (distress * 2) 0.5)
  else (bull, bear, distress)

/-- `SynthesisEngine._compute_belief_state`: the pre-normalization triple,
normalized by its sum when that sum exceeds 1, with
`neutral_prob = 1 − bull − bear − distress`. -/
def compute_belief_state (layers : Layers) (sa : StructuralAnalysis) :
    BeliefState :=
  let r := beliefRaw layers sa
  let total := r.1 + r.2.1 + r.2.2
  let bull := if total > 1 then r.1 / total else r.1
  let bear := if total > 1 then r.2.1 / total else r.2.1
  let distress := if total > 1 then r.2.2 / total else r.2.2
  { bull_prob := bull
    bear_prob := bear
    distress_prob := distress
    neutral_prob := 1 - bull - bear - distress }

/-! ## Action resolver (`SynthesisEngine._determine_action`) -/

/-- `SynthesisEngine._determine_action`, returning the
`(conviction, action)` pair.  The third component of the source's return
value, the `reasoning` explanation string (pure text, never branched on),
is elided.  The `layers` parameter is kept because the source takes it,
although its body never reads it. -/
def determine_action (weighted_score : ℚ) (sa : StructuralAnalysis)
    (belief : BeliefState) (_layers : Layers) : String × String :=
  if sa.disqualify then ("AVOID", "DO_NOT_TRADE")
  else if belief.distress_prob > 0.2 then ("SHORT", "SHORT_CANDIDATE")
  else if belief.bear_prob > 0.5 then ("SHORT", "SHORT_CANDIDATE")
  else if belief.bull_prob > 0.6 ∧ weighted_score ≥ 70 then
    ("HIGH", "BUY_HIGH_CONVICTION")
  else if weighted_score ≥ 65 then ("MEDIUM", "BUY_MEDIUM")
  else if weighted_score ≥ 55 then ("LOW", "TRADE_ONLY")
  else if weighted_score ≥ 40 then ("AVOID", "SPECULATION_ONLY")
  else ("AVOID", "DO_NOT_TRADE")

/-! ## Synthesis pipeline (`SynthesisEngine.synthesize`) -/

/-- Banker's rounding of a rational to the nearest integer (Python 3
`round`): ties (fractional part exactly 1/2) go to the even neighbour,
everything else to the nearest integer. -/
def roundHalfEven (x : ℚ) : ℤ :=
  if x - ⌊x⌋ = 1 / 2 then (if 2 ∣ ⌊x⌋ then ⌊x⌋ else ⌊x⌋ + 1)
  else round x

/-- Python's `round(x, 2)` over exact rationals. -/
def pyRound2 (x : ℚ) : ℚ :=
  (roundHalfEven (x * 100) : ℚ) / 100

/-- The synthesis result dict of `SynthesisEngine.synthesize`.  The
`ticker` echo, the `reasoning` string and the diagnostic `score_breakdown`
are elided (pure text / audit data, never branched on downstream). -/
structure SynthesisResult where
  weighted_score : ℚ
  raw_score : ℚ
  conviction : String
  action : String
  weights_used : WeightMap
  structural_analysis : StructuralAnalysis
  belief_state : BeliefState
  disqualified : Bool
  override_rules : List String
  deriving Repr, DecidableEq

/-- `SynthesisEngine.synthesize`: weight resolution, structural analysis,
weighted scoring, belief computation, action resolution, and assembly of
the result dict (`weighted_score` rounded to two decimals,
`raw_score = Σ layer.get('score', 5)`).  The engine's `print` logging is
elided. -/
def synthesize (table : WeightTable) (layers : Layers)
    (sector industry : Option String) : SynthesisResult :=
  let weights := get_weights table sector industry
  let sa := analyze_structural_patterns layers
  let weighted_score := calculate_weighted_score layers weights
  let belief := compute_belief_state layers sa
  let ca := determine_action weighted_score sa belief layers
  { weighted_score := pyRound2 weighted_score
    raw_score := (layers.map (fun kv => kv.2.score.getD 5)).sum
    conviction := ca.1
    action := ca.2
    weights_used := weights
    structural_analysis := sa
    belief_state := belief
    disqualified := sa.disqualify
    override_rules := sa.override_rules_triggered }

/-! ## Temporal delta engine (`temporal_engine.py`) -/

/-- The per-layer record stored in a history snapshot by
`TemporalEngine.save_analysis` (every field is written with a default, so
all fields are total). -/
structure SnapLayer where
  score : ℚ
  trajectory : String
  risk_flags : List String
  strength_flags : List String
  risk_level : String
  deriving Repr, DecidableEq

/-- One history snapshot: timestamp plus the per-layer records.  The stored
`synthesis` payload and `metadata` block feed only the conviction-change /
summary diagnostics, which are elided (see `compute_deltas`). -/
structure Snapshot where
  timestamp : String
  layers : List (String × SnapLayer)
  deriving Repr, DecidableEq

/-- One entry of `_compute_deltas`' `layer_changes` dict. -/
structure LayerChange where
  previous : ℚ
  latest : ℚ
  delta : ℚ
  direction : String
  trajectory_previous : String
  trajectory_latest : String
  deriving Repr, DecidableEq

/-- The `momentum` block of `_compute_deltas`. -/
structure Momentum where
  average_layer_delta : ℚ
  direction : String
  acceleration : String
  deriving Repr, DecidableEq

/-- The delta analysis returned by `TemporalEngine._compute_deltas`.
`momentum = none` models the empty `momentum` dict left when the snapshots
share no layer.  The `risk_drift`, `conviction_change` and `summary`
blocks (diagnostics derived independently of the fields below) are
elided. -/
structure DeltaResult where
  timestamp_latest : String
  timestamp_previous : String
  layer_changes : List (String × LayerChange)
  momentum : Option Momentum
  deriving Repr, DecidableEq

/-- The per-layer score deltas (`score_changes` in the source): for each
layer of the latest snapshot also present in the previous one, in latest
order, `latest_score − previous_score`. -/
def scoreChanges (latest previous : Snapshot) : List ℚ :=
  latest.layers.filterMap
    (fun kv => (previous.layers.lookup kv.1).map (fun p => kv.2.score - p.score))

/-- The mean per-layer score delta between two snapshots (defined whenever
they share a layer). -/
def avgDelta (latest previous : Snapshot) : ℚ :=
  (scoreChanges latest previous).sum / (scoreChanges latest previous).length

/-- `TemporalEngine._compute_deltas` (layer changes and momentum; see
`DeltaResult` for the elided diagnostic blocks).  The source iterates the
latest snapshot's layer names and pairs each with the same-named layer of
the previous snapshot when present. -/
def compute_deltas (latest previous : Snapshot) : DeltaResult :=
  let changes := latest.layers.filterMap
    (fun kv => (previous.layers.lookup kv.1).map (fun p =>
      let delta := kv.2.score - p.score
      ((kv.1,
        { previous := p.score
          latest := kv.2.score
          delta := pyRound2 delta
          direction :=
            if delta > 0 then "improving"
            else if delta < 0 then "deteriorating" else "stable"
          trajectory_previous := p.trajectory
          trajectory_latest := kv.2.trajectory }) : String × LayerChange)))
  let score_changes := scoreChanges latest previous
  let momentum : Option Momentum :=
    if score_changes = [] then none
    else
      let avg := score_changes.sum / score_changes.length
      some
        { average_layer_delta := pyRound2 avg
          direction :=
            if avg > 0.5 then "IMPROVING"
            else if avg < -0.5 then "DETERIORATING" else "STABLE"
          acceleration :=
            if avg > 1 then "ACCELERATING"
            else if avg < -1 then "DECELERATING" else "STEADY" }
  { timestamp_latest := latest.timestamp
    timestamp_previous := previous.timestamp
    layer_changes := changes
    momentum := momentum }

/-- The value returned by `TemporalEngine.get_temporal_analysis` when a
history file exists: either the "insufficient history" note dict (fewer
than 2 analyses; carries the analysis count) or a full delta analysis. -/
inductive TemporalResult where
  | note (analysis_count : ℕ)
  | delta (d : DeltaResult)
  deriving Repr, DecidableEq

/-- `TemporalEngine.get_temporal_analysis`.  The per-ticker history file is
modelled as `Option (List Snapshot)`: `none` when no file exists (the
function returns `None`), otherwise the stored `analyses` list.  With fewer
than 2 analyses it returns the note dict; otherwise it computes deltas
between the last (`analyses[-1]`) and second-to-last (`analyses[-2]`)
snapshots — the first two entries of the reversed list. -/
def get_temporal_analysis (history : Option (List Snapshot)) :
    Option TemporalResult :=
  match history with
  | none => none
  | some analyses =>
    match analyses.reverse with
    | latest :: previous :: _ => some (.delta (compute_deltas latest previous))
    | _ => some (.note analyses.length)

/-! ## Claim theorems -/

/-- **C1.** For every weighted score, structural analysis, belief state and
layer map, if the structural analysis has `disqualify = true`, the action
resolver `_determine_action` returns conviction `AVOID` and action
`DO_NOT_TRADE`, regardless of the score and of all belief probabilities. -/
theorem disqualify_forces_do_not_trade (weighted_score : ℚ)
    (sa : StructuralAnalysis) (belief : BeliefState) (layers : Layers)
    (h : sa.disqualify = true) :
    determine_action weighted_score sa belief layers = ("AVOID", "DO_NOT_TRADE") := by
  simp [determine_action, h]

/-- Witness for `disqualify_forces_do_not_trade` at a concrete input with a
high score and bullish beliefs. -/
theorem disqualify_forces_do_not_trade_witness :
    determine_action 95 ⟨true, true, [], [], none⟩ ⟨0.9, 0.02, 0.01, 0.07⟩ []
      = ("AVOID", "DO_NOT_TRADE") :=
  disqualify_forces_do_not_trade 95 ⟨true, true, [], [], none⟩
    ⟨0.9, 0.02, 0.01, 0.07⟩ [] rfl

/-- **C2.** For every layer map and structural analysis, the belief state
returned by `_compute_belief_state` satisfies
`bull_prob + bear_prob + distress_prob + neutral_prob = 1` exactly, over
exact arithmetic. -/
theorem belief_state_sums_to_one (layers : Layers) (sa : StructuralAnalysis) :
    (compute_belief_state layers sa).bull_prob
      + (compute_belief_state layers sa).bear_prob
      + (compute_belief_state layers sa).distress_prob
      + (compute_belief_state layers sa).neutral_prob = 1 := by
  simp only [compute_belief_state]
  ring

/-- **C3.** For every layer map whose structural analysis has
`disqualify = true`, the pre-normalization belief triple is forced to
`bull = 0.05`, `bear = 0.70`, `distress = min(distress-so-far × 2, 0.50)`,
where "distress-so-far" is the result of all multiplicative evidence
updates (`beliefUpdates`); the bull/bear components of those updates are
discarded. -/
theorem disqualify_forces_belief (layers : Layers) (sa : StructuralAnalysis)
    (h : sa.disqualify = true) :
    beliefRaw layers sa
      = (0.05, 0.7, min ((beliefUpdates layers).2.2 * 2) 0.5) := by
  simp [beliefRaw, beliefUpdates, h]

/-- Witness for `disqualify_forces_belief`: with no layers the evidence
updates leave `distress = 0.05`, so the forced triple is
`(0.05, 0.7, 0.1)`. -/
theorem disqualify_forces_belief_witness :
    beliefRaw [] ⟨true, false, [], [], none⟩ = (0.05, 0.7, 0.1) := by
  rw [disqualify_forces_belief [] ⟨true, false, [], [], none⟩ rfl]
  norm_num [beliefUpdates, getLayer, List.lookup]

/-- **C8 counterexample.** When neither industry nor sector matches, the
default-weights entry is returned unfiltered, so a weight table whose
`_default_weights` entry itself holds an underscore-prefixed key makes
`_get_weights` return a mapping with an underscore-prefixed key — the
claim is false as stated. -/
theorem get_weights_underscore_leak :
    get_weights [("_default_weights", [("_private", 1)])] none none
        = [("_private", 1)]
      ∧ startsWithUnderscore "_private" = true := by
  exact ⟨rfl, rfl⟩

/-- **C8 (amended).** `_get_weights` never returns an underscore-prefixed
key on the industry- and sector-match paths (they filter), and on the
default path provided the stored `_default_weights` entry itself contains
no underscore-prefixed key (it is returned unfiltered). -/
theorem get_weights_no_underscore (table : WeightTable)
    (sector industry : Option String)
    (hdef : (default_weights table).all (fun kv => !(startsWithUnderscore kv.1)) = true) :
    (get_weights table sector industry).all (fun kv => !(startsWithUnderscore kv.1)) = true := by
  unfold get_weights
  split
  · next m _ =>
    simp only [List.all_eq_true, decide_eq_true_eq]
    intro kv hkv
    exact (List.mem_filter.mp hkv).2
  · split
    · next m _ =>
      simp only [List.all_eq_true, decide_eq_true_eq]
      intro kv hkv
      exact (List.mem_filter.mp hkv).2
    · exact hdef

/-- Witness for `get_weights_no_underscore`: a table whose default entry is
clean, resolved through the sector path. -/
theorem get_weights_no_underscore_witness :
    (get_weights
        [("Software", [("business_model", 4)]),
         ("_default_weights", [("risk", 1)])]
        (some "Software") none).all (fun kv => !(startsWithUnderscore kv.1)) = true :=
  get_weights_no_underscore
    [("Software", [("business_model", 4)]), ("_default_weights", [("risk", 1)])]
    (some "Software") none rfl

/-- **C9.** If the competitive layer's risk level is high or critical and
the business layer carries `LOW_MARGINS`, the structural analyzer appends
the `COMPETITIVE_PRESSURE + LOW_MARGINS` message, but this rule alone never
disqualifies: `disqualify` equals exactly the disjunction of rules 1–4. -/
theorem competitive_pressure_warning_only (layers : Layers)
    (h5 : rule5Cond layers = true) :
    "COMPETITIVE_PRESSURE + LOW_MARGINS = No moat, commodity pricing"
        ∈ (analyze_structural_patterns layers).override_rules_triggered
      ∧ (analyze_structural_patterns layers).disqualify
        = (rule1Cond layers || rule2Cond layers || rule3Cond layers || rule4Cond layers) := by
  unfold rule5Cond at h5
  constructor
  · simp only [analyze_structural_patterns, List.mem_append, h5]
    simp
  · rfl

/-- Witness for `competitive_pressure_warning_only`: layers triggering only
rule 5 — the warning is emitted and `disqualify` stays `false`. -/
theorem competitive_pressure_warning_only_witness :
    "COMPETITIVE_PRESSURE + LOW_MARGINS = No moat, commodity pricing"
        ∈ (analyze_structural_patterns
            [("competitive", { risk_level := some "high" }),
             ("business_model", { risk_flags := some ["LOW_MARGINS"] })]).override_rules_triggered
      ∧ (analyze_structural_patterns
            [("competitive", { risk_level := some "high" }),
             ("business_model", { risk_flags := some ["LOW_MARGINS"] })]).disqualify = false := by
  obtain ⟨hm, hd⟩ := competitive_pressure_warning_only
    [("competitive", { risk_level := some "high" }),
     ("business_model", { risk_flags := some ["LOW_MARGINS"] })] rfl
  exact ⟨hm, by rw [hd]; rfl⟩

/-- The weight resolved for a layer (`weights.get(weight_key, 1.0)`) is
positive whenever every stored weight is positive. -/
theorem resolved_weight_pos (weights : WeightMap)
    (hw : ∀ kv ∈ weights, 0 < kv.2) (key : String) :
    0 < (weights.lookup key).getD 1 := by
  cases h : weights.lookup key with
  | none => norm_num
  | some w => simpa using hw (key, w) (lookup_mem h)

/-- One `weightedStep` preserves `0 ≤ total ≤ 10 · weight_sum` when all
layer scores lie in `[0, 10]` and all stored weights are positive. -/
theorem weightedStep_bounds (layers : Layers) (weights : WeightMap)
    (hs : ∀ kv ∈ layers, 0 ≤ kv.2.score.getD 5 ∧ kv.2.score.getD 5 ≤ 10)
    (hw : ∀ kv ∈ weights, 0 < kv.2) (key : String) (acc : ℚ × ℚ)
    (h0 : 0 ≤ acc.1) (h1 : acc.1 ≤ 10 * acc.2) :
    0 ≤ (weightedStep layers weights acc key).1
      ∧ (weightedStep layers weights acc key).1
        ≤ 10 * (weightedStep layers weights acc key).2 := by
  unfold weightedStep
  cases h : layers.lookup key with
  | none => exact ⟨h0, h1⟩
  | some ld =>
    obtain ⟨hs0, hs10⟩ := hs (key, ld) (lookup_mem h)
    have hwp := resolved_weight_pos weights hw key
    constructor
    · exact add_nonneg h0 (mul_nonneg hs0 hwp.le)
    · have hmul : ld.score.getD 5 * (weights.lookup key).getD 1
          ≤ 10 * (weights.lookup key).getD 1 :=
        mul_le_mul_of_nonneg_right hs10 hwp.le
      simp only
      nlinarith

/-- The whole accumulation loop preserves `0 ≤ total ≤ 10 · weight_sum`. -/
theorem weightedSums_loop_bounds (layers : Layers) (weights : WeightMap)
    (hs : ∀ kv ∈ layers, 0 ≤ kv.2.score.getD 5 ∧ kv.2.score.getD 5 ≤ 10)
    (hw : ∀ kv ∈ weights, 0 < kv.2) :
    ∀ (keys : List String) (acc : ℚ × ℚ), 0 ≤ acc.1 → acc.1 ≤ 10 * acc.2 →
      0 ≤ (keys.foldl (weightedStep layers weights) acc).1
        ∧ (keys.foldl (weightedStep layers weights) acc).1
          ≤ 10 * (keys.foldl (weightedStep layers weights) acc).2 := by
  intro keys
  induction keys with
  | nil => intro acc h0 h1; exact ⟨h0, h1⟩
  | cons k ks ih =>
    intro acc h0 h1
    rw [List.foldl_cons]
    obtain ⟨h0', h1'⟩ := weightedStep_bounds layers weights hs hw k acc h0 h1
    exact ih _ h0' h1'

/-- **C4.** With all layer scores in `[0, 10]` and positive stored weights,
the weighted score lies in `[0, 100]`; and whenever the accumulated weight
sum is `0` (e.g. no canonical layer is present) the returned score is
exactly the neutral `50`. -/
theorem weighted_score_in_range (layers : Layers) (weights : WeightMap)
    (hs : ∀ kv ∈ layers, 0 ≤ kv.2.score.getD 5 ∧ kv.2.score.getD 5 ≤ 10)
    (hw : ∀ kv ∈ weights, 0 < kv.2) :
    (0 ≤ calculate_weighted_score layers weights
      ∧ calculate_weighted_score layers weights ≤ 100)
    ∧ ((weightedSums layers weights).2 = 0 →
        calculate_weighted_score layers weights = 50) := by
  obtain ⟨hb0, hb1⟩ := weightedSums_loop_bounds layers weights hs hw
    canonicalLayers (0, 0) le_rfl (by norm_num)
  constructor
  · unfold calculate_weighted_score
    simp only [weightedSums] at *
    split
    · next hpos =>
      constructor
      · positivity
      · have h1 : (canonicalLayers.foldl (weightedStep layers weights) (0, 0)).1
            / (10 * (canonicalLayers.foldl (weightedStep layers weights) (0, 0)).2) ≤ 1 :=
          (div_le_one hpos).mpr hb1
        nlinarith
    · norm_num
  · intro hz
    simp only [calculate_weighted_score, hz]
    norm_num

/-- Witness for `weighted_score_in_range` at a concrete input: no canonical
layer is present, the weight sum is `0`, and the score is the neutral 50. -/
theorem weighted_score_in_range_witness :
    calculate_weighted_score [] [("risk", 2)] = 50 :=
  (weighted_score_in_range [] [("risk", 2)] (by simp)
    (by intro kv hkv; simp at hkv; subst hkv; norm_num)).2 (by rfl)

/-- The pre-normalization belief triple always satisfies
`0 < bull ≤ 0.9`, `0 < bear ≤ 0.8`, `0 < distress ≤ 0.5`: the priors are
only ever multiplied by finitely many constant factors, and the disqualify
forcing caps distress at 0.5. -/
theorem beliefRaw_bounds (layers : Layers) (sa : StructuralAnalysis) :
    (0 < (beliefRaw layers sa).1 ∧ (beliefRaw layers sa).1 ≤ 0.9)
      ∧ (0 < (beliefRaw layers sa).2.1 ∧ (beliefRaw layers sa).2.1 ≤ 0.8)
      ∧ (0 < (beliefRaw layers sa).2.2 ∧ (beliefRaw layers sa).2.2 ≤ 0.5) := by
  unfold beliefRaw
  split_ifs <;> norm_num [min_def] <;> split_ifs <;> norm_num at *

/-- **C10.** For every layer map and structural analysis, each of the four
belief probabilities individually lies in `[0, 1]`; in particular
`neutral_prob` is never negative, even when the pre-normalization sum
exceeds 1 (normalization then makes the three-way sum exactly 1 and
`neutral_prob` exactly 0). -/
theorem belief_probs_in_unit_interval (layers : Layers)
    (sa : StructuralAnalysis) :
    (0 ≤ (compute_belief_state layers sa).bull_prob
      ∧ (compute_belief_state layers sa).bull_prob ≤ 1)
    ∧ (0 ≤ (compute_belief_state layers sa).bear_prob
      ∧ (compute_belief_state layers sa).bear_prob ≤ 1)
    ∧ (0 ≤ (compute_belief_state layers sa).distress_prob
      ∧ (compute_belief_state layers sa).distress_prob ≤ 1)
    ∧ (0 ≤ (compute_belief_state layers sa).neutral_prob
      ∧ (compute_belief_state layers sa).neutral_prob ≤ 1) := by
  obtain ⟨⟨ha0, ha1⟩, ⟨hb0, hb1⟩, ⟨hc0, hc1⟩⟩ := beliefRaw_bounds layers sa
  simp only [compute_belief_state]
  by_cases htot : (beliefRaw layers sa).1 + (beliefRaw layers sa).2.1
      + (beliefRaw layers sa).2.2 > 1
  · have htp : (0 : ℚ) < (beliefRaw layers sa).1 + (beliefRaw layers sa).2.1
        + (beliefRaw layers sa).2.2 := by linarith
    simp only [if_pos htot]
    have hsum : (beliefRaw layers sa).1
          / ((beliefRaw layers sa).1 + (beliefRaw layers sa).2.1 + (beliefRaw layers sa).2.2)
        + (beliefRaw layers sa).2.1
          / ((beliefRaw layers sa).1 + (beliefRaw layers sa).2.1 + (beliefRaw layers sa).2.2)
        + (beliefRaw layers sa).2.2
          / ((beliefRaw layers sa).1 + (beliefRaw layers sa).2.1 + (beliefRaw layers sa).2.2)
        = 1 := by
      field_simp
    refine ⟨⟨?_, ?_⟩, ⟨?_, ?_⟩, ⟨?_, ?_⟩, ⟨?_, ?_⟩⟩
    · exact div_nonneg ha0.le htp.le
    · exact (div_le_one htp).mpr (by linarith)
    · exact div_nonneg hb0.le htp.le
    · exact (div_le_one htp).mpr (by linarith)
    · exact div_nonneg hc0.le htp.le
    · exact (div_le_one htp).mpr (by linarith)
    · linarith
    · have h1 : 0 ≤ (beliefRaw layers sa).1
          / ((beliefRaw layers sa).1 + (beliefRaw layers sa).2.1 + (beliefRaw layers sa).2.2) :=
        div_nonneg ha0.le htp.le
      have h2 : 0 ≤ (beliefRaw layers sa).2.1
          / ((beliefRaw layers sa).1 + (beliefRaw layers sa).2.1 + (beliefRaw layers sa).2.2) :=
        div_nonneg hb0.le htp.le
      have h3 : 0 ≤ (beliefRaw layers sa).2.2
          / ((beliefRaw layers sa).1 + (beliefRaw layers sa).2.1 + (beliefRaw layers sa).2.2) :=
        div_nonneg hc0.le htp.le
      linarith
  · simp only [if_neg htot]
    push_neg at htot
    refine ⟨⟨ha0.le, ?_⟩, ⟨hb0.le, ?_⟩, ⟨hc0.le, ?_⟩, ⟨?_, ?_⟩⟩ <;> linarith

/-- A concrete one-layer snapshot used by the temporal counterexamples. -/
def snapSingle : Snapshot :=
  ⟨"2024-01-01T00:00:00", [("financial_truth", ⟨6, "stable", [], [], "low"⟩)]⟩

/-- **C6 counterexample.** With exactly one saved snapshot (fewer than 2),
`get_temporal_analysis` does not return null: it returns the
"insufficient history" note record carrying the analysis count. -/
theorem single_snapshot_returns_note :
    get_temporal_analysis (some [snapSingle])
        = some (TemporalResult.note 1)
      ∧ get_temporal_analysis (some [snapSingle]) ≠ none := by
  constructor
  · rfl
  · intro h
    simp [get_temporal_analysis] at h

/-- **C6 (amended).** `get_temporal_analysis` returns null exactly when no
history exists; with a history of fewer than 2 snapshots it returns the
non-null insufficient-history note (not a Delta); and a Delta record is
returned exactly when at least 2 snapshots exist. -/
theorem get_delta_snapshot_count (history : Option (List Snapshot)) :
    (history = none → get_temporal_analysis history = none)
    ∧ (∀ l, history = some l → l.length < 2 →
        get_temporal_analysis history = some (TemporalResult.note l.length))
    ∧ ((∃ d, get_temporal_analysis history = some (TemporalResult.delta d))
        ↔ (∃ l, history = some l ∧ 2 ≤ l.length)) := by
  refine ⟨?_, ?_, ?_⟩
  · rintro rfl
    rfl
  · rintro l rfl hl
    rcases hrev : l.reverse with _ | ⟨a, _ | ⟨b, t⟩⟩
    · simp [get_temporal_analysis, hrev]
    · simp [get_temporal_analysis, hrev]
    · exfalso
      have hlen := congrArg List.length hrev
      simp at hlen
      omega
  · constructor
    · rintro ⟨d, hd⟩
      cases history with
      | none => simp [get_temporal_analysis] at hd
      | some l =>
        refine ⟨l, rfl, ?_⟩
        rcases hrev : l.reverse with _ | ⟨a, _ | ⟨b, t⟩⟩ <;>
          simp [get_temporal_analysis, hrev] at hd
        have hlen := congrArg List.length hrev
        simp at hlen
        omega
    · rintro ⟨l, rfl, hl⟩
      have h2 : 2 ≤ l.reverse.length := by simpa using hl
      rcases hrev : l.reverse with _ | ⟨a, _ | ⟨b, t⟩⟩
      · rw [hrev] at h2
        simp at h2
      · rw [hrev] at h2
        simp at h2
      · exact ⟨compute_deltas a b, by simp [get_temporal_analysis, hrev]⟩

/-- Witness for `get_delta_snapshot_count`: a history file holding an empty
analyses list yields the note record with count 0. -/
theorem get_delta_snapshot_count_witness :
    get_temporal_analysis (some ([] : List Snapshot))
      = some (TemporalResult.note 0) :=
  (get_delta_snapshot_count (some [])).2.1 [] rfl (by norm_num)

/-- **C7 (amended).** When two consecutive snapshots share at least one
layer, the momentum record carries the mean per-layer delta `avg` (rounded
to two decimals), direction `IMPROVING` if `avg > 0.5`, `DETERIORATING` if
`avg < −0.5`, else `STABLE`, and acceleration `ACCELERATING` if
`avg > 1.0` (not `|avg| > 1.0`), else `DECELERATING` if `avg < −1.0`, else
`STEADY`. -/
theorem momentum_label_thresholds (latest previous : Snapshot)
    (h : scoreChanges latest previous ≠ []) :
    (compute_deltas latest previous).momentum = some
      { average_layer_delta := pyRound2 (avgDelta latest previous)
        direction :=
          if avgDelta latest previous > 0.5 then "IMPROVING"
          else if avgDelta latest previous < -0.5 then "DETERIORATING"
          else "STABLE"
        acceleration :=
          if avgDelta latest previous > 1 then "ACCELERATING"
          else if avgDelta latest previous < -1 then "DECELERATING"
          else "STEADY" } := by
  simp only [compute_deltas, avgDelta, if_neg h]

/-- Latest snapshot of the improving temporal example (score 6 → 8). -/
def snapImpLat : Snapshot :=
  ⟨"2024-02-01", [("financial_truth", ⟨8, "improving", [], [], "low"⟩)]⟩

/-- Previous snapshot of the improving temporal example. -/
def snapImpPrev : Snapshot :=
  ⟨"2024-01-01", [("financial_truth", ⟨6, "stable", [], [], "high"⟩)]⟩

/-- Witness for `momentum_label_thresholds`: one shared layer whose score
moves 6 → 8, so the mean delta is 2 — IMPROVING and ACCELERATING. -/
theorem momentum_label_thresholds_witness :
    (compute_deltas snapImpLat snapImpPrev).momentum
      = some ⟨2, "IMPROVING", "ACCELERATING"⟩ := by
  have hne : scoreChanges snapImpLat snapImpPrev ≠ [] := by
    norm_num [scoreChanges, snapImpLat, snapImpPrev, List.lookup,
      List.filterMap_cons]
  have havg : avgDelta snapImpLat snapImpPrev = 2 := by
    norm_num [avgDelta, scoreChanges, snapImpLat, snapImpPrev, List.lookup,
      List.filterMap_cons]
  rw [momentum_label_thresholds snapImpLat snapImpPrev hne, havg]
  norm_num [pyRound2, roundHalfEven, round_eq]

/-- Latest snapshot of the deteriorating temporal example (score 6 → 4). -/
def snapDetLat : Snapshot :=
  ⟨"2024-02-01", [("financial_truth", ⟨4, "deteriorating", [], [], "low"⟩)]⟩

/-- Previous snapshot of the deteriorating temporal example. -/
def snapDetPrev : Snapshot :=
  ⟨"2024-01-01", [("financial_truth", ⟨6, "stable", [], [], "low"⟩)]⟩

/-- **C7 counterexample.** With one shared layer whose score moves 6 → 4
the mean delta is −2, so `|avg| = 2 > 1.0` and the claim demands
acceleration `ACCELERATING`; but the code labels it `DECELERATING`
(the source tests `avg > 1.0`, not `|avg| > 1.0`). -/
theorem momentum_acceleration_mislabel :
    (compute_deltas snapDetLat snapDetPrev).momentum
        = some ⟨-2, "DETERIORATING", "DECELERATING"⟩
      ∧ (1 : ℚ) < |(-2 : ℚ)|
      ∧ "DECELERATING" ≠ "ACCELERATING" := by
  refine ⟨?_, by norm_num, by simp⟩
  have hsc : scoreChanges snapDetLat snapDetPrev = [-2] := by
    norm_num [scoreChanges, snapDetLat, snapDetPrev, List.lookup,
      List.filterMap_cons]
  simp only [compute_deltas, hsc]
  norm_num [pyRound2, roundHalfEven, round_eq]

/-! ## The all-empty degenerate case -/

/-- In a layer map whose every value is `create_empty`, any layer lookup
yields either the absent-dict or a `create_empty` record. -/
theorem getLayer_all_empty {layers : Layers}
    (h : ∀ kv ∈ layers, ∃ r, kv.2 = LayerOutput.create_empty r) (k : String) :
    getLayer layers k = ({} : LayerDict)
      ∨ ∃ r, getLayer layers k = LayerOutput.create_empty r := by
  unfold getLayer
  cases hl : layers.lookup k with
  | none => left; rfl
  | some v =>
    right
    obtain ⟨r, hr⟩ := h (k, v) (lookup_mem hl)
    exact ⟨r, by simp [show v = LayerOutput.create_empty r from hr]⟩

/-- All-empty layers: every score read with default 5 gives 5. -/
theorem all_empty_score {layers : Layers}
    (h : ∀ kv ∈ layers, ∃ r, kv.2 = LayerOutput.create_empty r) (k : String) :
    (getLayer layers k).score.getD 5 = 5 := by
  rcases getLayer_all_empty h k with he | ⟨r, he⟩ <;>
    simp [he, LayerOutput.create_empty]

/-- All-empty layers: every risk-flag list read with default `[]` is `[]`. -/
theorem all_empty_risk_flags {layers : Layers}
    (h : ∀ kv ∈ layers, ∃ r, kv.2 = LayerOutput.create_empty r) (k : String) :
    (getLayer layers k).risk_flags.getD [] = [] := by
  rcases getLayer_all_empty h k with he | ⟨r, he⟩ <;>
    simp [he, LayerOutput.create_empty]

/-- All-empty layers: the risk level is never a given label other than
`"medium"`. -/
theorem all_empty_risk_level {layers : Layers}
    (h : ∀ kv ∈ layers, ∃ r, kv.2 = LayerOutput.create_empty r) (k : String)
    (s : String) (hs : s ≠ "medium") :
    ((getLayer layers k).risk_level == some s) = false := by
  rcases getLayer_all_empty h k with he | ⟨r, he⟩ <;>
    simp [he, LayerOutput.create_empty]
  exact fun hc => hs hc.symm

/-- All-empty layers: the trajectory is never a given label other than
`"unknown"`. -/
theorem all_empty_trajectory {layers : Layers}
    (h : ∀ kv ∈ layers, ∃ r, kv.2 = LayerOutput.create_empty r) (k : String)
    (s : String) (hs : s ≠ "unknown") :
    ((getLayer layers k).trajectory == some s) = false := by
  rcases getLayer_all_empty h k with he | ⟨r, he⟩ <;>
    simp [he, LayerOutput.create_empty]
  exact fun hc => hs hc.symm

/-- All-empty layers: no trajectory in the layer map counts as a label
other than `"unknown"`. -/
theorem all_empty_trajectory_count {layers : Layers}
    (h : ∀ kv ∈ layers, ∃ r, kv.2 = LayerOutput.create_empty r)
    (s : String) (hs : s ≠ "unknown") :
    (layers.map (fun kv => kv.2.trajectory)).count (some s) = 0 := by
  rw [List.count_eq_zero]
  intro hmem
  obtain ⟨kv, hkv, he⟩ := List.mem_map.mp hmem
  obtain ⟨r, hr⟩ := h kv hkv
  rw [hr] at he
  simp [LayerOutput.create_empty] at he
  exact hs he.symm

/-- All-empty layers trigger no disqualifying rule: every override rule
tests a risk flag drawn from an empty flag list. -/
theorem structural_all_empty {layers : Layers}
    (h : ∀ kv ∈ layers, ∃ r, kv.2 = LayerOutput.create_empty r) :
    (analyze_structural_patterns layers).disqualify = false := by
  have hfb := all_empty_risk_flags h "business_model"
  have hff := all_empty_risk_flags h "financial_truth"
  simp only [analyze_structural_patterns]
  simp [hfb, hff]

/-- All-empty layers leave the belief priors untouched when no disqualify
override is active. -/
theorem beliefRaw_all_empty {layers : Layers}
    (h : ∀ kv ∈ layers, ∃ r, kv.2 = LayerOutput.create_empty r)
    (sa : StructuralAnalysis) (hdq : sa.disqualify = false) :
    beliefRaw layers sa = (0.3, 0.2, 0.05) := by
  have hc := all_empty_risk_level h "financial_truth" "critical" (by simp)
  have hh := all_empty_risk_level h "financial_truth" "high" (by simp)
  have hs5 := all_empty_score h "business_model"
  have hi := all_empty_trajectory_count h "improving" (by simp)
  have hd := all_empty_trajectory_count h "deteriorating" (by simp)
  simp only [beliefRaw, hc, hh, hs5, hi, hd, hdq]
  norm_num

/-- All-empty layers keep the weighted total equal to five times the weight
sum throughout the accumulation loop. -/
theorem weightedSums_loop_all_empty {layers : Layers}
    (h : ∀ kv ∈ layers, ∃ r, kv.2 = LayerOutput.create_empty r)
    (weights : WeightMap) :
    ∀ (keys : List String) (acc : ℚ × ℚ), acc.1 = 5 * acc.2 →
      (keys.foldl (weightedStep layers weights) acc).1
        = 5 * (keys.foldl (weightedStep layers weights) acc).2 := by
  intro keys
  induction keys with
  | nil => intro acc hacc; exact hacc
  | cons k ks ih =>
    intro acc hacc
    rw [List.foldl_cons]
    apply ih
    unfold weightedStep
    cases hl : layers.lookup k with
    | none => exact hacc
    | some ld =>
      obtain ⟨r, hr⟩ := h (k, ld) (lookup_mem hl)
      have h5 : ld.score.getD 5 = 5 := by
        simp [show ld = LayerOutput.create_empty r from hr,
          LayerOutput.create_empty]
      simp only [h5]
      linarith [hacc]

/-- All-empty layers produce the neutral weighted score 50, whatever the
weight map says. -/
theorem weighted_score_all_empty {layers : Layers}
    (h : ∀ kv ∈ layers, ∃ r, kv.2 = LayerOutput.create_empty r)
    (weights : WeightMap) :
    calculate_weighted_score layers weights = 50 := by
  have hsum := weightedSums_loop_all_empty h weights canonicalLayers (0, 0)
    (by norm_num)
  simp only [calculate_weighted_score, weightedSums] at *
  split
  · next hpos =>
    rw [hsum]
    have hne : 10 * (canonicalLayers.foldl (weightedStep layers weights) (0, 0)).2 ≠ 0 :=
      ne_of_gt hpos
    rw [div_mul_eq_mul_div, div_eq_iff hne]
    ring
  · rfl

/-- **C5.** For every weight table, sector/industry pair and non-empty
layer map over the canonical layer names whose every layer is
`LayerOutput.create_empty` (for arbitrary reason strings), `synthesize`
yields `weighted_score = 50`, conviction `AVOID` and action
`SPECULATION_ONLY` — the documented degenerate case — without error. -/
theorem synthesize_all_empty_degenerate (table : WeightTable)
    (sector industry : Option String) (layers : Layers)
    (hne : layers ≠ []) (hnd : (layers.map Prod.fst).Nodup)
    (hcanon : ∀ kv ∈ layers, kv.1 ∈ canonicalLayers)
    (hempty : ∀ kv ∈ layers, ∃ r, kv.2 = LayerOutput.create_empty r) :
    (synthesize table layers sector industry).weighted_score = 50
      ∧ (synthesize table layers sector industry).conviction = "AVOID"
      ∧ (synthesize table layers sector industry).action = "SPECULATION_ONLY" := by
  have hdq := structural_all_empty hempty
  have hws := weighted_score_all_empty hempty (get_weights table sector industry)
  have hbr := beliefRaw_all_empty hempty (analyze_structural_patterns layers) hdq
  have hbs : compute_belief_state layers (analyze_structural_patterns layers)
      = ⟨0.3, 0.2, 0.05, 0.45⟩ := by
    simp only [compute_belief_state, hbr]
    norm_num
  have hda : determine_action
      (calculate_weighted_score layers (get_weights table sector industry))
      (analyze_structural_patterns layers)
      (compute_belief_state layers (analyze_structural_patterns layers)) layers
      = ("AVOID", "SPECULATION_ONLY") := by
    rw [hws, hbs]
    simp only [determine_action, hdq]
    norm_num
  refine ⟨?_, ?_, ?_⟩
  · show pyRound2 (calculate_weighted_score layers
      (get_weights table sector industry)) = 50
    rw [hws]
    norm_num [pyRound2, roundHalfEven, round_eq]
  · show (determine_action _ _ _ _).1 = "AVOID"
    rw [hda]
  · show (determine_action _ _ _ _).2 = "SPECULATION_ONLY"
    rw [hda]

/-- Witness for `synthesize_all_empty_degenerate`: a single errored
business-model layer, empty weight table, no sector/industry. -/
theorem synthesize_all_empty_degenerate_witness :
    (synthesize [] [("business_model", LayerOutput.create_empty "no data")]
        none none).weighted_score = 50
      ∧ (synthesize [] [("business_model", LayerOutput.create_empty "no data")]
          none none).conviction = "AVOID"
      ∧ (synthesize [] [("business_model", LayerOutput.create_empty "no data")]
          none none).action = "SPECULATION_ONLY" :=
  synthesize_all_empty_degenerate [] none none
    [("business_model", LayerOutput.create_empty "no data")]
    (by simp) (by simp) (by simp [canonicalLayers])
    (by intro kv hkv; simp at hkv; exact ⟨"no data", by rw [hkv]⟩)
